import Mathlib

/-!
Verification development for the VIdyaTid GuruAI repository.

The repository has two Python source files:
* `src/services/gemini_ai.py` — a client wrapper around the Gemini API
  adding multi-key rotation on rate limits plus a fallback provider;
* `src/init_admin.py` — an idempotent administrator-account seeder.

Below, each Python function is shallowly embedded as a Lean definition.
Mutable object state (`self.current_key_index`, `self.key_cooldowns`,
the configured client) is passed explicitly as a `GeminiAI` value; the
remote provider and the wall clock are an explicit behaviour trace
(`Nat → Attempt`), one entry per attempt of the retry loop; exceptions
become sum types.  Timestamps are `Nat`; the Python test
`now - t >= dur` on floats agrees with the truncated `Nat` subtraction
used here for all (non-negative) timestamps: both are false when
`t > now` and otherwise equivalent.
-/

/-! ### String helpers (Python `in`, `str.lower`, `str.split()`) -/

/-- Does `s` start with `pat`?  (Python slice comparison.) -/
def leadsWith : List Char → List Char → Bool
  | [], _ => true
  | _ :: _, [] => false
  | a :: as, b :: bs => a == b && leadsWith as bs

/-- Python `pat in s` for strings, on the underlying character lists. -/
def containsList (pat : List Char) : List Char → Bool
  | [] => leadsWith pat []
  | c :: rest => leadsWith pat (c :: rest) || containsList pat rest

/-- Python `pat in s` on `String`. -/
def pyContains (s pat : String) : Bool :=
  containsList pat.toList s.toList

/-- Python `str.lower()` (ASCII case folding, which covers every
character the classifier compares). -/
def pyLower (s : String) : String :=
  String.mk (s.toList.map Char.toLower)

/-- Accumulator pass of Python `str.split()`: `cur` is the current word
read so far, reversed. -/
def wordsAux (cur : List Char) : List Char → List (List Char)
  | [] => if cur = [] then [] else [cur.reverse]
  | c :: rest =>
    if c.isWhitespace then
      if cur = [] then wordsAux [] rest else cur.reverse :: wordsAux [] rest
    else wordsAux (c :: cur) rest

/-- Python `str.split()` with no argument: split on whitespace runs,
dropping empty fragments. -/
def pySplitWs (s : String) : List String :=
  (wordsAux [] s.toList).map String.mk

/-- Python `len(x.split())` — whitespace-delimited word count. -/
def countWords (s : String) : Nat :=
  (pySplitWs s).length

/-- Python `str.split(sep)` for a one-character separator, keeping
empty fragments. -/
def splitOnChar (sep : Char) : List Char → List (List Char)
  | [] => [[]]
  | c :: rest =>
    if c = sep then [] :: splitOnChar sep rest
    else
      match splitOnChar sep rest with
      | [] => [[c]]
      | w :: ws => (c :: w) :: ws

/-- Python `str.strip()`: drop whitespace from both ends. -/
def stripChars (l : List Char) : List Char :=
  ((l.dropWhile Char.isWhitespace).reverse.dropWhile Char.isWhitespace).reverse

/-! ### Gemini response shapes (`generate`, lines 123–157)

A Python attribute access can find the attribute missing (`hasattr`
false), raise one of the caught exception classes (`IndexError`,
`AttributeError`, `ValueError` — e.g. the SDK member `response.text` raising
`ValueError` on a blocked response), or produce a value. -/

inductive PyAttr (α : Type) where
  | absent : PyAttr α
  | raising : PyAttr α
  | value : α → PyAttr α
deriving DecidableEq, Repr

structure GPart where
  text : PyAttr String
deriving DecidableEq, Repr

structure GContent where
  parts : PyAttr (List GPart)
deriving DecidableEq, Repr

structure GCandidate where
  content : PyAttr GContent
deriving DecidableEq, Repr

structure GemResponse where
  text : PyAttr String
  candidates : PyAttr (List GCandidate)
deriving DecidableEq, Repr

/-- Lines 127–131: `try: if hasattr(response, text): text = response.text`
with `IndexError/AttributeError/ValueError` caught (leaving `text = ""`). -/
def tryDirect (r : GemResponse) : String :=
  match r.text with
  | .value s => s
  | .absent => ""
  | .raising => ""

/-- Lines 134–147: descend `response.candidates[0].content.parts[0].text`,
guarded by `hasattr`/truthiness/length checks, exceptions caught. -/
def tryCandidates (r : GemResponse) : String :=
  match r.candidates with
  | .value (c :: _) =>
    match c.content with
    | .value content =>
      match content.parts with
      | .value (p :: _) =>
        match p.text with
        | .value s => s
        | .absent => ""
        | .raising => ""
      | .value [] => ""
      | .absent => ""
      | .raising => ""
    | .absent => ""
    | .raising => ""
  | .value [] => ""
  | .absent => ""
  | .raising => ""

/-- Lines 124–147: direct field first; if the resulting `text` is falsy
(empty), the candidates path. -/
def extractText (r : GemResponse) : String :=
  let direct := tryDirect r
  if direct = "" then tryCandidates r else direct

/-! ### Result dictionaries and client state -/

/-- The result dictionary with keys text, success, tokens_used, error. -/
structure GenResult where
  text : String
  success : Bool
  tokens_used : Nat
  error : Option String
deriving DecidableEq, Repr

/-- The mutable attributes of a `GeminiAI` instance.  `configured_key`
models which credential `genai.configure`/`GenerativeModel` was last
pointed at (`_configure_current_key`). -/
structure GeminiAI where
  api_keys : List String
  current_key_index : Nat
  key_cooldowns : List (Nat × Nat)
  cooldown_duration : Nat
  model_name : String
  configured_key : String
  enabled : Bool
deriving DecidableEq, Repr

namespace GeminiAI

/-- Lookup `self.key_cooldowns.get(i, 0)` — dictionary lookup with default 0. -/
def cooldownOf (cd : List (Nat × Nat)) (i : Nat) : Nat :=
  match cd.lookup i with
  | some t => t
  | none => 0

/-- Assignment `self.key_cooldowns[i] = t` — dictionary assignment. -/
def dictSet (cd : List (Nat × Nat)) (i t : Nat) : List (Nat × Nat) :=
  (i, t) :: cd.filter (fun p => p.1 ≠ i)

/-- Parsing of `GEMINI_API_KEYS` (lines 21–22): split on commas, strip,
drop empties. -/
def parseKeys (multi : String) : List String :=
  (((splitOnChar ',' multi.toList).map stripChars).filter
    (fun k => k ≠ [])).map String.mk

/-- Lines 21–28: the key pool after the multi-key variable and the
single-key fallback variable are consulted. -/
def allKeys (multi single : String) : List String :=
  if (parseKeys multi).isEmpty then
    (if single ≠ "" then [single] else [])
  else parseKeys multi

/-- Constructor `__init__` (lines 19–51), given the two environment variables.
Raises (`Except.error`) exactly when no credential is configured. -/
def init (multi single : String) : Except String GeminiAI :=
  if (allKeys multi single).isEmpty then
    .error "No Gemini API keys found. Set GEMINI_API_KEYS (comma-separated) or GEMINI_API_KEY in .env"
  else
    .ok { api_keys := allKeys multi single
          current_key_index := 0
          key_cooldowns := []
          cooldown_duration := 60
          model_name := "gemini-2.0-flash"
          configured_key := (allKeys multi single).getD 0 ""
          enabled := true }

/-- The scan of `_rotate_key` (lines 75–83): `for _ in range(n)`,
advance the index modulo `n`, return the first index whose cooldown has
elapsed. -/
def findEligible (dur now : Nat) (cd : List (Nat × Nat)) (n : Nat) :
    Nat → Nat → Option Nat
  | 0, _ => none
  | fuel + 1, idx =>
    let idx' := (idx + 1) % n
    if now - cooldownOf cd idx' ≥ dur then some idx'
    else findEligible dur now cd n fuel idx'

/-- Method `_rotate_key` (lines 60–87).  `now` is the value of `time.time()`.
Returns the Python return value paired with the updated state. -/
def rotate_key (s : GeminiAI) (now : Nat) : Bool × GeminiAI :=
  if s.api_keys.length ≤ 1 then (false, s)
  else
    match findEligible s.cooldown_duration now
        (dictSet s.key_cooldowns s.current_key_index now) s.api_keys.length
        s.api_keys.length s.current_key_index with
    | some j =>
      (true, { s with
        key_cooldowns := dictSet s.key_cooldowns s.current_key_index now
        current_key_index := j
        configured_key := s.api_keys.getD j "" })
    | none =>
      (false, { s with
        key_cooldowns := dictSet s.key_cooldowns s.current_key_index now })

end GeminiAI

/-- Per-attempt behaviour of the remote provider: either
`model.generate_content` returns a response, or it raises an exception
whose `str(e)` is `msg`; `now` is the `time.time()` a rotation triggered
by that exception would observe. -/
inductive Attempt where
  | resp : GemResponse → Attempt
  | exc : (msg : String) → (now : Nat) → Attempt
deriving DecidableEq, Repr

/-- The request parameters of `generate`: prompt, sampling temperature
(opaque to the wrapper), token budget, optional stop sequences. -/
structure GenRequest where
  prompt : String
  temperature : Int
  max_tokens : Nat
  stop : Option (List String)
deriving DecidableEq, Repr

/-- Behaviour of `cf_ai.generate(...)`: either it raises, or it returns a
result dictionary. -/
inductive FallbackCall where
  | raises : FallbackCall
  | returns : GenResult → FallbackCall
deriving DecidableEq, Repr

/-- How the `for attempt in range(max_retries)` loop ended: a `return`
inside the loop body, or falling through to the fallback stage
(`break` or range exhaustion), carrying `last_error`. -/
inductive LoopExit where
  | returned : GenResult → LoopExit
  | exhausted : Option String → LoopExit
deriving DecidableEq, Repr

/-- Output of the retry loop: how it exited, the state after it, and
instrumentation counting `_rotate_key` invocations and successes. -/
structure LoopOut where
  exit : LoopExit
  state : GeminiAI
  rotations : Nat
  rotationsSucceeded : Nat
deriving DecidableEq, Repr

/-- The fixed rate-limit marker substrings (lines 177–180). -/
def rateLimitTerms : List String :=
  ["rate limit", "quota", "429", "resource exhausted",
   "too many requests", "rate_limit"]

/-- Lines 173–180: `error_str = str(e).lower()`;
`any(term in error_str for term in [...])`. -/
def isRateLimit (msg : String) : Bool :=
  rateLimitTerms.any (fun t => pyContains (pyLower msg) t)

/-- Python `str(last_error)` for the final failure dictionary (line 208). -/
def pyStr : Option String → String
  | none => "None"
  | some m => m

/-- The empty-response failure dictionary (lines 152–157). -/
def emptyResponseResult : GenResult :=
  { text := "", success := false, tokens_used := 0
    error := some "Empty response from API" }

namespace GeminiAI

/-- The `for attempt in range(max_retries)` loop of `generate`
(lines 108–187).  `fuel` is the number of remaining range iterations,
`attempt` the current iteration index, `lastErr` the running
`last_error`. -/
def genLoop (req : GenRequest) (beh : Nat → Attempt) :
    Nat → Nat → Option String → GeminiAI → LoopOut
  | 0, _, lastErr, s => ⟨.exhausted lastErr, s, 0, 0⟩
  | Nat.succ fuel, attempt, _lastErr, s =>
    match beh attempt with
    | .resp r =>
      if extractText r = "" then
        ⟨.returned emptyResponseResult, s, 0, 0⟩
      else
        ⟨.returned { text := extractText r, success := true
                     tokens_used := countWords (extractText r) + countWords req.prompt
                     error := none }, s, 0, 0⟩
    | .exc msg now =>
      if isRateLimit msg then
        if (rotate_key s now).1 then
          ⟨(genLoop req beh fuel (attempt + 1) (some msg) (rotate_key s now).2).exit,
           (genLoop req beh fuel (attempt + 1) (some msg) (rotate_key s now).2).state,
           (genLoop req beh fuel (attempt + 1) (some msg) (rotate_key s now).2).rotations + 1,
           (genLoop req beh fuel (attempt + 1) (some msg) (rotate_key s now).2).rotationsSucceeded + 1⟩
        else
          ⟨.exhausted (some msg), (rotate_key s now).2, 1, 0⟩
      else
        ⟨.exhausted (some msg), s, 0, 0⟩

/-- What a whole `generate` call produced: the result dictionary, the
state afterwards, and instrumentation (rotation counts, whether the
loop fell through to the fallback stage, whether the fallback provider
was actually consulted). -/
structure GenOutcome where
  result : GenResult
  state : GeminiAI
  rotations : Nat
  rotationsSucceeded : Nat
  exhausted : Bool
  fallbackAttempted : Bool
deriving DecidableEq, Repr

/-- Method `generate` (lines 89–209).  `beh` is the behaviour of the provider per
attempt; `fbEnabled` is `is_cloudflare_ai_enabled()`; `fb` is the
behaviour of the fallback provider as a function of the request it is
called with. -/
def generate (s : GeminiAI) (req : GenRequest) (beh : Nat → Attempt)
    (fbEnabled : Bool) (fb : GenRequest → FallbackCall) : GenOutcome :=
  let lo := genLoop req beh s.api_keys.length 0 none s
  match lo.exit with
  | .returned r =>
    ⟨r, lo.state, lo.rotations, lo.rotationsSucceeded, false, false⟩
  | .exhausted lastErr =>
    let orig : GenResult :=
      { text := "", success := false, tokens_used := 0
        error := some (pyStr lastErr) }
    if fbEnabled then
      match fb req with
      | .returns r =>
        if r.success then
          ⟨r, lo.state, lo.rotations, lo.rotationsSucceeded, true, true⟩
        else
          ⟨orig, lo.state, lo.rotations, lo.rotationsSucceeded, true, true⟩
      | .raises =>
        ⟨orig, lo.state, lo.rotations, lo.rotationsSucceeded, true, true⟩
    else
      ⟨orig, lo.state, lo.rotations, lo.rotationsSucceeded, true, false⟩

/-- Method `_messages_to_prompt` (lines 240–256); messages are
`(role, content)` pairs. -/
def messages_to_prompt (msgs : List (String × String)) : String :=
  let prompt_parts := msgs.filterMap (fun m =>
    if m.1 = "system" then some ("System Instructions: " ++ m.2 ++ "\n")
    else if m.1 = "user" then some ("User: " ++ m.2 ++ "\n")
    else if m.1 = "assistant" then some ("Assistant: " ++ m.2 ++ "\n")
    else none)
  String.intercalate "\n" (prompt_parts ++ ["Assistant: "])

/-- Method `chat` (lines 211–238): flattens the messages, delegates to
`generate` (with no stop sequences), returns the text on success and
raises (`Except.error`) the error of the result otherwise. -/
def chat (s : GeminiAI) (msgs : List (String × String))
    (temperature : Int) (max_tokens : Nat) (beh : Nat → Attempt)
    (fbEnabled : Bool) (fb : GenRequest → FallbackCall) :
    Except String String × GeminiAI :=
  let out := generate s
    { prompt := messages_to_prompt msgs, temperature := temperature
      max_tokens := max_tokens, stop := none } beh fbEnabled fb
  if out.result.success then (.ok out.result.text, out.state)
  else (.error (pyStr out.result.error), out.state)

/-- The dictionary returned by `get_status` (lines 258–270). -/
structure Status where
  enabled : Bool
  model : String
  provider : String
  tier : String
  rate_limit : String
  quality : String
  api_keys_count : Nat
  current_key_index : Nat
  key_rotation : String
deriving DecidableEq, Repr

/-- Method `get_status` (lines 258–270): a pure read of the state. -/
def get_status (s : GeminiAI) : Status :=
  { enabled := s.enabled
    model := s.model_name
    provider := "Google Gemini"
    tier := "Free"
    rate_limit := "15 requests/minute, 1500 requests/day"
    quality := "Excellent"
    api_keys_count := s.api_keys.length
    current_key_index := s.current_key_index + 1
    key_rotation := if s.api_keys.length > 1 then "enabled" else "disabled" }

end GeminiAI

/-! ### Admin seeder (`src/init_admin.py`) -/

/-- A preference value in the `preferences` payload. -/
inductive PrefVal where
  | s : String → PrefVal
  | b : Bool → PrefVal
deriving DecidableEq, Repr

/-- A row of the external user store, as the seeder constructs and
queries it. -/
structure UserRec where
  username : String
  password : String
  email : String
  preferences : List (String × PrefVal)
deriving DecidableEq, Repr

/-- The record `create_admin_user` constructs (lines 31–42). -/
def admin_user : UserRec :=
  { username := "admin"
    password := "Admin@123"
    email := "admin@test.com"
    preferences :=
      [("role", .s "admin"), ("tier", .s "premium"), ("is_admin", .b true),
       ("unlimited_access", .b true), ("all_features_enabled", .b true)] }

/-- Query `db.query(User).filter_by(email=e).first()`. -/
def queryByEmail (db : List UserRec) (e : String) : Option UserRec :=
  db.find? (fun u => u.email == e)

/-- Query `db.query(User).filter_by(username=n).first()`. -/
def queryByUsername (db : List UserRec) (n : String) : Option UserRec :=
  db.find? (fun u => u.username == n)

/-- Function `create_admin_user` (lines 14–54), on the successful-commit path:
returns the updated store and the message printed. -/
def create_admin_user (db : List UserRec) : List UserRec × String :=
  match queryByEmail db "admin@test.com" with
  | some _ => (db, "Admin user already exists!")
  | none =>
    match queryByUsername db "admin" with
    | some _ => (db, "Admin user (by username) already exists!")
    | none => (db ++ [admin_user], "✅ Admin user created successfully!")

/-! ### Auxiliary notions used by the statements -/

/-- The active index is a valid position in the key pool. -/
def GeminiAI.validIndex (s : GeminiAI) : Prop :=
  s.current_key_index < s.api_keys.length

/-- The attempt raises an exception that the wrapper classifies as
rate-limit-related. -/
def attemptRateLimited : Attempt → Prop
  | .resp _ => False
  | .exc msg _ => isRateLimit msg = true

/-- The failure dictionary built from `last_error` (lines 204–209). -/
def origFailure (lastErr : Option String) : GenResult :=
  { text := "", success := false, tokens_used := 0
    error := some (pyStr lastErr) }

/-- State `t` is reachable from `s` by some sequence of `_rotate_key` calls
(at arbitrary times). -/
inductive GeminiAI.RotateReach : GeminiAI → GeminiAI → Prop where
  | refl (s : GeminiAI) : GeminiAI.RotateReach s s
  | cons (s t : GeminiAI) (now : Nat) :
      GeminiAI.RotateReach (GeminiAI.rotate_key s now).2 t →
      GeminiAI.RotateReach s t

/-- Concrete two-key client state used for concrete evaluations. -/
def twoKeyState : GeminiAI :=
  { api_keys := ["k1", "k2"], current_key_index := 0, key_cooldowns := []
    cooldown_duration := 60, model_name := "gemini-2.0-flash"
    configured_key := "k1", enabled := true }

/-- Concrete one-key client state. -/
def oneKeyState : GeminiAI :=
  { api_keys := ["k1"], current_key_index := 0, key_cooldowns := []
    cooldown_duration := 60, model_name := "gemini-2.0-flash"
    configured_key := "k1", enabled := true }

/-- A provider that raises a rate-limit error on every attempt, all
within one cooldown window (`time.time()` frozen at 100). -/
def allRateLimited : Nat → Attempt := fun _ => .exc "429" 100

/-- A concrete request. -/
def sampleReq : GenRequest :=
  { prompt := "a b c", temperature := 7, max_tokens := 2000, stop := none }

/-- A response exposing only the nested candidates path. -/
def nestedOnlyResp : GemResponse :=
  { text := .absent
    candidates := .value
      [{ content := .value { parts := .value [{ text := .value "d e" }] } }] }

/-- A response with no extractable text anywhere. -/
def blockedResp : GemResponse :=
  { text := .raising, candidates := .value [] }

/-- A provider that always answers with `nestedOnlyResp`. -/
def nestedRespBeh : Nat → Attempt := fun _ => .resp nestedOnlyResp

/-- A provider that always answers with `blockedResp`. -/
def blockedRespBeh : Nat → Attempt := fun _ => .resp blockedResp

/-- A fallback provider that always succeeds. -/
def goodFb : GenRequest → FallbackCall :=
  fun _ => .returns { text := "fb text", success := true, tokens_used := 2, error := none }

/-- A fallback provider that always raises. -/
def raisingFb : GenRequest → FallbackCall := fun _ => .raises

/-! ## Theorems -/

/-- Lemma: `List.find?` skips a block in which nothing matches. -/
theorem find?_append_of_none {α : Type} {p : α → Bool} {l1 l2 : List α}
    (h : l1.find? p = none) : (l1 ++ l2).find? p = l2.find? p := by
  induction l1 with
  | nil => simp
  | cons a t ih =>
    cases hpa : p a with
    | true => simp [List.find?, hpa] at h
    | false =>
      simp only [List.find?, hpa] at h
      simpa [List.find?, hpa] using ih h

/-- C8: for a key pool of size 1 (or 0), `_rotate_key` returns failure
immediately and mutates nothing: the returned state (active index,
cooldown table, configured client) is exactly the input state. -/
theorem rotate_singleton_pool_noop (s : GeminiAI) (now : Nat)
    (h : s.api_keys.length ≤ 1) :
    GeminiAI.rotate_key s now = (false, s) := by
  unfold GeminiAI.rotate_key
  rw [if_pos h]

/-- Witness for C8 at a concrete one-key state. -/
theorem rotate_singleton_pool_noop_witness :
    GeminiAI.rotate_key oneKeyState 100 = (false, oneKeyState) :=
  rotate_singleton_pool_noop oneKeyState 100 (by decide)

/-- C9: the seeder is idempotent.  If the email lookup matches it
no-ops with "already exists"; failing that, if the username lookup
matches it no-ops with the by-username message; and running the seeder
twice leaves the store of the first run unchanged, the second run
reporting one of the two "already exists" messages. -/
theorem create_admin_user_idempotent (db : List UserRec) :
    ((queryByEmail db "admin@test.com").isSome = true →
      create_admin_user db = (db, "Admin user already exists!")) ∧
    (queryByEmail db "admin@test.com" = none →
      (queryByUsername db "admin").isSome = true →
      create_admin_user db = (db, "Admin user (by username) already exists!")) ∧
    (create_admin_user (create_admin_user db).1).1 = (create_admin_user db).1 ∧
    ((create_admin_user (create_admin_user db).1).2 = "Admin user already exists!" ∨
     (create_admin_user (create_admin_user db).1).2 =
       "Admin user (by username) already exists!") := by
  refine ⟨?_, ?_, ?_⟩
  · intro h
    rcases hE : queryByEmail db "admin@test.com" with _ | u
    · rw [hE] at h; simp at h
    · simp [create_admin_user, hE]
  · intro hE hU
    rcases hU' : queryByUsername db "admin" with _ | u
    · rw [hU'] at hU; simp at hU
    · simp [create_admin_user, hE, hU']
  · rcases hE : queryByEmail db "admin@test.com" with _ | u
    · rcases hU : queryByUsername db "admin" with _ | u
      · have h1 : (create_admin_user db).1 = db ++ [admin_user] := by
          simp [create_admin_user, hE, hU]
        have hE2 : queryByEmail (db ++ [admin_user]) "admin@test.com" =
            some admin_user := by
          unfold queryByEmail at hE ⊢
          rw [find?_append_of_none hE]
          rfl
        rw [h1]
        constructor
        · simp [create_admin_user, hE2]
        · left; simp [create_admin_user, hE2]
      · have h1 : (create_admin_user db).1 = db := by
          simp [create_admin_user, hE, hU]
        rw [h1]
        constructor
        · simp [create_admin_user, hE, hU]
        · right; simp [create_admin_user, hE, hU]
    · have h1 : (create_admin_user db).1 = db := by
        simp [create_admin_user, hE]
      rw [h1]
      constructor
      · simp [create_admin_user, hE]
      · left; simp [create_admin_user, hE]

/-- Witness for C9 at the store already holding the admin row. -/
theorem create_admin_user_idempotent_witness :
    create_admin_user [admin_user] =
      ([admin_user], "Admin user already exists!") :=
  (create_admin_user_idempotent [admin_user]).1 (by decide)

/-- C10: a provider response with no extractable text makes the retry
loop `return` the empty-response failure on the spot — the state is
unchanged, no rotation happens from that point on — and whenever the
loop exits by `return`, `generate` passes that result through with the
fallback stage never reached, whatever the fallback configuration. -/
theorem empty_response_returns_immediately :
    (∀ (req : GenRequest) (beh : Nat → Attempt) (fuel attempt : Nat)
       (e : Option String) (s : GeminiAI) (r : GemResponse),
       beh attempt = .resp r → extractText r = "" →
       GeminiAI.genLoop req beh (fuel + 1) attempt e s =
         ⟨.returned emptyResponseResult, s, 0, 0⟩) ∧
    (∀ (s : GeminiAI) (req : GenRequest) (beh : Nat → Attempt)
       (fbEnabled : Bool) (fb : GenRequest → FallbackCall) (x : GenResult),
       (GeminiAI.genLoop req beh s.api_keys.length 0 none s).exit =
         .returned x →
       GeminiAI.generate s req beh fbEnabled fb =
         ⟨x, (GeminiAI.genLoop req beh s.api_keys.length 0 none s).state,
          (GeminiAI.genLoop req beh s.api_keys.length 0 none s).rotations,
          (GeminiAI.genLoop req beh s.api_keys.length 0 none s).rotationsSucceeded,
          false, false⟩) := by
  constructor
  · intro req beh fuel attempt e s r hbeh hext
    simp only [GeminiAI.genLoop, hbeh, hext]
    simp
  · intro s req beh fbEnabled fb x hexit
    simp only [GeminiAI.generate, hexit]

/-- Witness for C10: blocked response on a two-key pool with an
enabled, succeeding fallback — the empty-response failure is returned,
no rotation, no fallback. -/
theorem empty_response_returns_immediately_witness :
    GeminiAI.generate twoKeyState sampleReq blockedRespBeh true goodFb =
      ⟨emptyResponseResult,
       (GeminiAI.genLoop sampleReq blockedRespBeh twoKeyState.api_keys.length
         0 none twoKeyState).state,
       (GeminiAI.genLoop sampleReq blockedRespBeh twoKeyState.api_keys.length
         0 none twoKeyState).rotations,
       (GeminiAI.genLoop sampleReq blockedRespBeh twoKeyState.api_keys.length
         0 none twoKeyState).rotationsSucceeded,
       false, false⟩ :=
  empty_response_returns_immediately.2 twoKeyState sampleReq blockedRespBeh
    true goodFb emptyResponseResult (by decide)

/-- C4: `generate` is a total function into result values (its
embedding has no exception channel: every provider behaviour, response
or exception, and every fallback behaviour yields a `GenOutcome`),
while `chat` raises exactly when the underlying `generate` reports
failure, and returns only the generated text on success. -/
theorem chat_raises_iff_generate_fails (s : GeminiAI)
    (msgs : List (String × String)) (temperature : Int) (max_tokens : Nat)
    (beh : Nat → Attempt) (fbEnabled : Bool) (fb : GenRequest → FallbackCall) :
    ((GeminiAI.generate s
        { prompt := GeminiAI.messages_to_prompt msgs, temperature := temperature
          max_tokens := max_tokens, stop := none } beh fbEnabled fb).result.success = true →
      GeminiAI.chat s msgs temperature max_tokens beh fbEnabled fb =
        (.ok (GeminiAI.generate s
          { prompt := GeminiAI.messages_to_prompt msgs, temperature := temperature
            max_tokens := max_tokens, stop := none } beh fbEnabled fb).result.text,
         (GeminiAI.generate s
          { prompt := GeminiAI.messages_to_prompt msgs, temperature := temperature
            max_tokens := max_tokens, stop := none } beh fbEnabled fb).state)) ∧
    ((GeminiAI.generate s
        { prompt := GeminiAI.messages_to_prompt msgs, temperature := temperature
          max_tokens := max_tokens, stop := none } beh fbEnabled fb).result.success = false →
      GeminiAI.chat s msgs temperature max_tokens beh fbEnabled fb =
        (.error (pyStr (GeminiAI.generate s
          { prompt := GeminiAI.messages_to_prompt msgs, temperature := temperature
            max_tokens := max_tokens, stop := none } beh fbEnabled fb).result.error),
         (GeminiAI.generate s
          { prompt := GeminiAI.messages_to_prompt msgs, temperature := temperature
            max_tokens := max_tokens, stop := none } beh fbEnabled fb).state)) := by
  constructor
  · intro h
    simp only [GeminiAI.chat, h]
    simp
  · intro h
    simp only [GeminiAI.chat, h]
    simp

/-- Witness for C4: a succeeding chat returns exactly the generated
text. -/
theorem chat_raises_iff_generate_fails_witness :
    GeminiAI.chat twoKeyState [("user", "hi")] 7 1024 nestedRespBeh false
        raisingFb =
      (.ok (GeminiAI.generate twoKeyState
        { prompt := GeminiAI.messages_to_prompt [("user", "hi")], temperature := 7
          max_tokens := 1024, stop := none } nestedRespBeh false raisingFb).result.text,
       (GeminiAI.generate twoKeyState
        { prompt := GeminiAI.messages_to_prompt [("user", "hi")], temperature := 7
          max_tokens := 1024, stop := none } nestedRespBeh false raisingFb).state) :=
  (chat_raises_iff_generate_fails twoKeyState [("user", "hi")] 7 1024
    nestedRespBeh false raisingFb).1 (by decide)

/-- C5: once the retry loop is exhausted, exactly one fallback call is
made when the secondary provider is enabled, on the very same request;
its result is returned verbatim if and only if it reports success, and
any fallback failure (failure result or exception) is swallowed,
yielding the failure built from the original error; with the fallback
disabled, that original failure is returned directly. -/
theorem fallback_policy (s : GeminiAI) (req : GenRequest)
    (beh : Nat → Attempt) (fb : GenRequest → FallbackCall) (le : Option String)
    (hexit : (GeminiAI.genLoop req beh s.api_keys.length 0 none s).exit =
      .exhausted le) :
    ((GeminiAI.generate s req beh true fb).fallbackAttempted = true ∧
     (∀ r : GenResult, fb req = .returns r →
       (GeminiAI.generate s req beh true fb).result =
         if r.success then r else origFailure le) ∧
     (fb req = .raises →
       (GeminiAI.generate s req beh true fb).result = origFailure le)) ∧
    ((GeminiAI.generate s req beh false fb).result = origFailure le ∧
     (GeminiAI.generate s req beh false fb).fallbackAttempted = false) := by
  refine ⟨⟨?_, ?_, ?_⟩, ?_, ?_⟩
  · simp only [GeminiAI.generate, hexit]
    rcases fb req with _ | r
    · simp
    · rcases r with ⟨t, su, tk, er⟩
      cases su <;> simp
  · intro r hr
    simp only [GeminiAI.generate, hexit, hr]
    cases hs : r.success <;> simp [hs, origFailure]
  · intro hr
    simp only [GeminiAI.generate, hexit, hr]
    simp [origFailure]
  · simp only [GeminiAI.generate, hexit]
    simp [origFailure]
  · simp only [GeminiAI.generate, hexit]
    simp

/-- Witness for C5: two rate-limited keys, enabled succeeding fallback
— its successful result is returned verbatim. -/
theorem fallback_policy_witness :
    (GeminiAI.generate twoKeyState sampleReq allRateLimited true goodFb).result =
      (if ({ text := "fb text", success := true, tokens_used := 2,
             error := none } : GenResult).success then
        ({ text := "fb text", success := true, tokens_used := 2,
           error := none } : GenResult)
       else origFailure (some "429")) :=
  ((fallback_policy twoKeyState sampleReq allRateLimited goodFb (some "429")
      (by decide)).1.2.1
    { text := "fb text", success := true, tokens_used := 2, error := none }
    rfl)

/-- C3: text extraction tries the direct `text` field first (a
non-empty direct value wins); when it is absent or its access raises,
the nested `candidates[0].content.parts[0].text` path is used; and a
`generate` attempt whose response yields no text at all returns the
`success=False`, empty-text, zero-token, explicit-error dictionary —
the embedding of `generate` is a total function, so no exception reaches
the caller. -/
theorem response_text_extraction :
    (∀ (r : GemResponse) (t : String), r.text = .value t → t ≠ "" →
       extractText r = t) ∧
    (∀ r : GemResponse, r.text = .absent ∨ r.text = .raising →
       extractText r = tryCandidates r) ∧
    (∀ (s : GeminiAI) (req : GenRequest) (beh : Nat → Attempt)
       (fbEnabled : Bool) (fb : GenRequest → FallbackCall) (r : GemResponse),
       0 < s.api_keys.length → beh 0 = .resp r →
       (extractText r ≠ "" →
         (GeminiAI.generate s req beh fbEnabled fb).result.success = true ∧
         (GeminiAI.generate s req beh fbEnabled fb).result.text = extractText r) ∧
       (extractText r = "" →
         (GeminiAI.generate s req beh fbEnabled fb).result = emptyResponseResult)) := by
  refine ⟨?_, ?_, ?_⟩
  · intro r t hr ht
    simp [extractText, tryDirect, hr, ht]
  · intro r hr
    rcases hr with h | h <;> simp [extractText, tryDirect, h]
  · intro s req beh fbEnabled fb r hlen hbeh
    obtain ⟨m, hm⟩ : ∃ m, s.api_keys.length = m + 1 :=
      ⟨s.api_keys.length - 1, (Nat.succ_pred_eq_of_pos hlen).symm⟩
    constructor
    · intro hne
      have hloop : GeminiAI.genLoop req beh s.api_keys.length 0 none s =
          ⟨.returned { text := extractText r, success := true
                       tokens_used := countWords (extractText r) + countWords req.prompt
                       error := none }, s, 0, 0⟩ := by
        rw [hm]
        simp only [GeminiAI.genLoop, hbeh]
        simp [hne]
      simp [GeminiAI.generate, hloop]
    · intro he
      have hloop : GeminiAI.genLoop req beh s.api_keys.length 0 none s =
          ⟨.returned emptyResponseResult, s, 0, 0⟩ := by
        rw [hm]
        simp only [GeminiAI.genLoop, hbeh]
        simp [he]
      simp [GeminiAI.generate, hloop]

/-- Witness for C3: a response exposing only the nested candidate path
still yields the nested text, with success. -/
theorem response_text_extraction_witness :
    (GeminiAI.generate twoKeyState sampleReq nestedRespBeh false raisingFb).result.success = true ∧
    (GeminiAI.generate twoKeyState sampleReq nestedRespBeh false raisingFb).result.text =
      extractText nestedOnlyResp :=
  (response_text_extraction.2.2 twoKeyState sampleReq nestedRespBeh false
    raisingFb nestedOnlyResp (by decide) rfl).1 (by decide)

/-- Boolean `leadsWith p s` says exactly that `p` is a leading block of `s`. -/
theorem leadsWith_iff (p : List Char) : ∀ s : List Char,
    leadsWith p s = true ↔ ∃ r, s = p ++ r := by
  induction p with
  | nil => intro s; simp [leadsWith]
  | cons a as ih =>
    intro s
    cases s with
    | nil => simp [leadsWith]
    | cons b bs =>
      rw [leadsWith]
      simp only [Bool.and_eq_true, beq_iff_eq]
      constructor
      · rintro ⟨rfl, h⟩
        obtain ⟨r, rfl⟩ := (ih bs).1 h
        exact ⟨r, rfl⟩
      · rintro ⟨r, hr⟩
        rw [List.cons_append] at hr
        injection hr with h1 h2
        exact ⟨h1.symm ▸ rfl, (ih bs).2 ⟨r, h2⟩⟩

/-- Boolean `containsList p s` says exactly that `p` occurs inside `s`. -/
theorem containsList_iff (p : List Char) : ∀ s : List Char,
    containsList p s = true ↔ ∃ l r, s = l ++ p ++ r := by
  intro s
  induction s with
  | nil =>
    rw [containsList]
    rw [leadsWith_iff]
    constructor
    · rintro ⟨r, hr⟩
      exact ⟨[], r, hr⟩
    · rintro ⟨l, r, hr⟩
      cases l with
      | nil => exact ⟨r, hr⟩
      | cons x xs => simp at hr
  | cons c rest ih =>
    rw [containsList]
    simp only [Bool.or_eq_true]
    rw [leadsWith_iff]
    constructor
    · rintro (⟨r, hr⟩ | h)
      · exact ⟨[], r, by simpa using hr⟩
      · obtain ⟨l, r, rfl⟩ := ih.1 h
        exact ⟨c :: l, r, rfl⟩
    · rintro ⟨l, r, hr⟩
      cases l with
      | nil => exact Or.inl ⟨r, by simpa using hr⟩
      | cons x xs =>
        rw [List.cons_append, List.cons_append] at hr
        injection hr with h1 h2
        exact Or.inr (ih.2 ⟨xs, r, h2⟩)

/-- C6: an exception is classified rate-limit-related exactly when its
lower-cased description contains one of the six fixed substrings; a
rate-limit-classified error with a successful rotation continues the
retry loop; a rate-limit-classified error whose rotation fails, or any
non-rate-limit error, ends the loop at once — and for a non-rate-limit
error the state is untouched: no rotation is even attempted. -/
theorem rate_limit_classification :
    (∀ msg : String, isRateLimit msg = true ↔
       ∃ t ∈ rateLimitTerms, ∃ l r : List Char,
         (pyLower msg).toList = l ++ t.toList ++ r) ∧
    (∀ (req : GenRequest) (beh : Nat → Attempt) (fuel attempt : Nat)
       (e : Option String) (s : GeminiAI) (msg : String) (now : Nat),
       beh attempt = .exc msg now → isRateLimit msg = false →
       GeminiAI.genLoop req beh (fuel + 1) attempt e s =
         ⟨.exhausted (some msg), s, 0, 0⟩) ∧
    (∀ (req : GenRequest) (beh : Nat → Attempt) (fuel attempt : Nat)
       (e : Option String) (s : GeminiAI) (msg : String) (now : Nat),
       beh attempt = .exc msg now → isRateLimit msg = true →
       (GeminiAI.rotate_key s now).1 = true →
       GeminiAI.genLoop req beh (fuel + 1) attempt e s =
         ⟨(GeminiAI.genLoop req beh fuel (attempt + 1) (some msg)
             (GeminiAI.rotate_key s now).2).exit,
          (GeminiAI.genLoop req beh fuel (attempt + 1) (some msg)
             (GeminiAI.rotate_key s now).2).state,
          (GeminiAI.genLoop req beh fuel (attempt + 1) (some msg)
             (GeminiAI.rotate_key s now).2).rotations + 1,
          (GeminiAI.genLoop req beh fuel (attempt + 1) (some msg)
             (GeminiAI.rotate_key s now).2).rotationsSucceeded + 1⟩) ∧
    (∀ (req : GenRequest) (beh : Nat → Attempt) (fuel attempt : Nat)
       (e : Option String) (s : GeminiAI) (msg : String) (now : Nat),
       beh attempt = .exc msg now → isRateLimit msg = true →
       (GeminiAI.rotate_key s now).1 = false →
       GeminiAI.genLoop req beh (fuel + 1) attempt e s =
         ⟨.exhausted (some msg), (GeminiAI.rotate_key s now).2, 1, 0⟩) := by
  refine ⟨?_, ?_, ?_, ?_⟩
  · intro msg
    unfold isRateLimit
    rw [List.any_eq_true]
    constructor
    · rintro ⟨t, ht, htc⟩
      exact ⟨t, ht, (containsList_iff t.toList (pyLower msg).toList).1 htc⟩
    · rintro ⟨t, ht, hocc⟩
      exact ⟨t, ht, (containsList_iff t.toList (pyLower msg).toList).2 hocc⟩
  · intro req beh fuel attempt e s msg now hbeh hrl
    simp only [GeminiAI.genLoop, hbeh, hrl]
    simp
  · intro req beh fuel attempt e s msg now hbeh hrl hrot
    simp only [GeminiAI.genLoop, hbeh, hrl, hrot]
    simp
  · intro req beh fuel attempt e s msg now hbeh hrl hrot
    simp only [GeminiAI.genLoop, hbeh, hrl, hrot]
    simp

/-- Witness for C6: "boom" is not rate-limit-classified, so the loop
ends immediately with no rotation and an untouched state. -/
theorem rate_limit_classification_witness :
    GeminiAI.genLoop sampleReq (fun _ => .exc "boom" 100) (1 + 1) 0 none
        twoKeyState =
      ⟨.exhausted (some "boom"), twoKeyState, 0, 0⟩ :=
  rate_limit_classification.2.1 sampleReq (fun _ => .exc "boom" 100) 1 0 none
    twoKeyState "boom" 100 rfl (by decide)

/-- The retry loop invokes `_rotate_key` at most once per remaining
range iteration. -/
theorem genLoop_rotations_le (req : GenRequest) (beh : Nat → Attempt) :
    ∀ (fuel attempt : Nat) (e : Option String) (s : GeminiAI),
      (GeminiAI.genLoop req beh fuel attempt e s).rotations ≤ fuel := by
  intro fuel
  induction fuel with
  | zero => intro attempt e s; simp [GeminiAI.genLoop]
  | succ f ih =>
    intro attempt e s
    rcases hb : beh attempt with r | ⟨msg, now⟩
    · simp only [GeminiAI.genLoop, hb]
      split <;> simp
    · simp only [GeminiAI.genLoop, hb]
      cases hrl : isRateLimit msg
      · simp
      · simp only [if_true]
        cases hrot : (GeminiAI.rotate_key s now).1
        · simp
        · simp only [if_true]
          have := ih (attempt + 1) (some msg) (GeminiAI.rotate_key s now).2
          omega

/-- If every attempt raises a rate-limit-classified error, the loop
never exits by `return`: it always falls through to the fallback
stage. -/
theorem genLoop_exhausted_of_rl (req : GenRequest) (beh : Nat → Attempt)
    (hrl : ∀ i, attemptRateLimited (beh i)) :
    ∀ (fuel attempt : Nat) (e : Option String) (s : GeminiAI),
      ∃ le, (GeminiAI.genLoop req beh fuel attempt e s).exit = .exhausted le := by
  intro fuel
  induction fuel with
  | zero => intro attempt e s; exact ⟨e, rfl⟩
  | succ f ih =>
    intro attempt e s
    rcases hb : beh attempt with r | ⟨msg, now⟩
    · exact absurd (hrl attempt) (by rw [hb]; exact fun h => h)
    · have hmsg : isRateLimit msg = true := by
        have := hrl attempt
        rw [hb] at this
        exact this
      simp only [GeminiAI.genLoop, hb, hmsg, if_true]
      cases hrot : (GeminiAI.rotate_key s now).1
      · exact ⟨some msg, rfl⟩
      · simp only [if_true]
        exact ih (attempt + 1) (some msg) (GeminiAI.rotate_key s now).2

/-- Whatever the fallback does, `generate` reports the rotation count
of the loop, final state and exhaustion flag. -/
theorem generate_instrumentation (s : GeminiAI) (req : GenRequest)
    (beh : Nat → Attempt) (fbEnabled : Bool) (fb : GenRequest → FallbackCall) :
    (GeminiAI.generate s req beh fbEnabled fb).rotations =
      (GeminiAI.genLoop req beh s.api_keys.length 0 none s).rotations ∧
    (GeminiAI.generate s req beh fbEnabled fb).state =
      (GeminiAI.genLoop req beh s.api_keys.length 0 none s).state ∧
    ((GeminiAI.generate s req beh fbEnabled fb).exhausted = true ↔
      ∃ le, (GeminiAI.genLoop req beh s.api_keys.length 0 none s).exit =
        .exhausted le) := by
  rcases hx : (GeminiAI.genLoop req beh s.api_keys.length 0 none s).exit
    with x | le
  · simp [GeminiAI.generate, hx]
  · simp only [GeminiAI.generate, hx]
    cases fbEnabled
    · simp
    · rcases fb req with _ | r
      · simp
      · cases hs : r.success <;> simp [hs]

/-- C1 counterexample: with a pool of N = 2 keys and every provider
call raising a rate-limit error (within one cooldown window),
`_rotate_key` is invoked 2 = N times during the single `generate`
call — not at most N − 1 = 1: each of the N failed attempts invokes it
once, the last invocation being the one that fails and ends the loop. -/
theorem rotate_count_counterexample :
    1 < twoKeyState.api_keys.length ∧
    (∀ i, attemptRateLimited (allRateLimited i)) ∧
    (GeminiAI.generate twoKeyState sampleReq allRateLimited false
      raisingFb).exhausted = true ∧
    (GeminiAI.generate twoKeyState sampleReq allRateLimited false
      raisingFb).rotations = 2 ∧
    ¬((GeminiAI.generate twoKeyState sampleReq allRateLimited false
        raisingFb).rotations ≤ twoKeyState.api_keys.length - 1) :=
  ⟨by decide, fun _ => show isRateLimit "429" = true by decide,
   by decide, by decide, by decide⟩

/-- C1 (amended): for a pool of N > 1 keys, if every attempt raises a
rate-limit error, `_rotate_key` is invoked at most N times — once per
failed attempt — before the retry loop is exhausted and the fallback
stage is reached. -/
theorem rotate_count_bounded (s : GeminiAI) (req : GenRequest)
    (beh : Nat → Attempt) (fbEnabled : Bool) (fb : GenRequest → FallbackCall)
    (hN : 1 < s.api_keys.length)
    (hrl : ∀ i, attemptRateLimited (beh i)) :
    (GeminiAI.generate s req beh fbEnabled fb).rotations ≤
      s.api_keys.length ∧
    (GeminiAI.generate s req beh fbEnabled fb).exhausted = true := by
  obtain ⟨hrot, _, hex⟩ := generate_instrumentation s req beh fbEnabled fb
  constructor
  · rw [hrot]
    exact genLoop_rotations_le req beh s.api_keys.length 0 none s
  · exact hex.2 (genLoop_exhausted_of_rl req beh hrl s.api_keys.length 0 none s)

/-- Witness for C1 (amended) at the concrete two-key scenario. -/
theorem rotate_count_bounded_witness :
    (GeminiAI.generate twoKeyState sampleReq allRateLimited true
      goodFb).rotations ≤ twoKeyState.api_keys.length ∧
    (GeminiAI.generate twoKeyState sampleReq allRateLimited true
      goodFb).exhausted = true :=
  rotate_count_bounded twoKeyState sampleReq allRateLimited true goodFb
    (by decide) (fun _ => show isRateLimit "429" = true by decide)

/-- Scan `findEligible` returns `some j` exactly when `j` is the first
eligible candidate in the forward scan `(idx+1)%n, (idx+2)%n, …`. -/
theorem findEligible_eq_some_iff (dur now n : Nat) (cd : List (Nat × Nat)) :
    ∀ (fuel idx j : Nat),
      GeminiAI.findEligible dur now cd n fuel idx = some j ↔
        ∃ k, k < fuel ∧ j = (idx + 1 + k) % n ∧
          now - GeminiAI.cooldownOf cd j ≥ dur ∧
          ∀ m, m < k →
            ¬(now - GeminiAI.cooldownOf cd ((idx + 1 + m) % n) ≥ dur) := by
  have hidx : ∀ idx m : Nat,
      ((idx + 1) % n + 1 + m) % n = (idx + 1 + (m + 1)) % n := by
    intro idx m
    conv_lhs => rw [show (idx + 1) % n + 1 + m = (idx + 1) % n + (1 + m) by omega]
    rw [Nat.mod_add_mod]
    congr 1
    omega
  intro fuel
  induction fuel with
  | zero =>
    intro idx j
    simp [GeminiAI.findEligible]
  | succ f ih =>
    intro idx j
    rw [GeminiAI.findEligible]
    by_cases h : now - GeminiAI.cooldownOf cd ((idx + 1) % n) ≥ dur
    · rw [if_pos h]
      simp only [Option.some.injEq]
      constructor
      · rintro rfl
        exact ⟨0, Nat.succ_pos f, rfl, h,
          fun m hm => absurd hm (Nat.not_lt_zero m)⟩
      · rintro ⟨k, hk, hj, helig, hmin⟩
        cases k with
        | zero => exact hj.symm
        | succ k' => exact absurd h (hmin 0 (Nat.succ_pos k'))
    · rw [if_neg h]
      rw [ih ((idx + 1) % n) j]
      constructor
      · rintro ⟨k, hk, hj, helig, hmin⟩
        refine ⟨k + 1, by omega, hj.trans (hidx idx k), helig, ?_⟩
        intro m hm
        cases m with
        | zero => exact h
        | succ m' =>
          rw [← hidx idx m']
          exact hmin m' (by omega)
      · rintro ⟨k, hk, hj, helig, hmin⟩
        cases k with
        | zero => exact absurd (hj ▸ helig) h
        | succ k' =>
          refine ⟨k', by omega, hj.trans (hidx idx k').symm, helig, ?_⟩
          intro m hm
          rw [hidx idx m]
          exact hmin (m + 1) (by omega)

/-- Scan `findEligible` returns `none` exactly when no candidate in the
scanned window is eligible. -/
theorem findEligible_eq_none_iff (dur now n : Nat) (cd : List (Nat × Nat)) :
    ∀ (fuel idx : Nat),
      GeminiAI.findEligible dur now cd n fuel idx = none ↔
        ∀ k, k < fuel →
          ¬(now - GeminiAI.cooldownOf cd ((idx + 1 + k) % n) ≥ dur) := by
  have hidx : ∀ idx m : Nat,
      ((idx + 1) % n + 1 + m) % n = (idx + 1 + (m + 1)) % n := by
    intro idx m
    conv_lhs => rw [show (idx + 1) % n + 1 + m = (idx + 1) % n + (1 + m) by omega]
    rw [Nat.mod_add_mod]
    congr 1
    omega
  intro fuel
  induction fuel with
  | zero =>
    intro idx
    simp [GeminiAI.findEligible]
  | succ f ih =>
    intro idx
    rw [GeminiAI.findEligible]
    by_cases h : now - GeminiAI.cooldownOf cd ((idx + 1) % n) ≥ dur
    · rw [if_pos h]
      constructor
      · intro heq; simp at heq
      · intro hall; exact absurd h (hall 0 (Nat.succ_pos f))
    · rw [if_neg h]
      rw [ih ((idx + 1) % n)]
      constructor
      · intro hall k hk
        cases k with
        | zero => exact h
        | succ k' =>
          rw [← hidx idx k']
          exact hall k' (by omega)
      · intro hall k hk
        rw [hidx idx k]
        exact hall (k + 1) (by omega)

/-- Looking up the key just marked gives the mark. -/
theorem cooldownOf_dictSet_self (cd : List (Nat × Nat)) (i t : Nat) :
    GeminiAI.cooldownOf (GeminiAI.dictSet cd i t) i = t := by
  simp [GeminiAI.cooldownOf, GeminiAI.dictSet, List.lookup]

/-- C2: for a pool of more than one key, `_rotate_key` first marks the
cooldown of the active index with `now`; on success the new active index is
the FIRST forward candidate (scanning `(i+1)%n, (i+2)%n, …` for one
full cycle, never more) whose time since its last rate-limit mark —
never-marked keys having mark 0 — is at least the cooldown duration,
so a key still in cooldown is never selected while an eligible one
exists; and it fails exactly when no candidate in the full cycle is
eligible, in which case the original active index is restored. -/
theorem rotate_key_first_eligible (s : GeminiAI) (now : Nat)
    (h : 1 < s.api_keys.length) :
    GeminiAI.cooldownOf (GeminiAI.rotate_key s now).2.key_cooldowns
      s.current_key_index = now ∧
    ((GeminiAI.rotate_key s now).1 = true →
      ∃ k, k < s.api_keys.length ∧
        (GeminiAI.rotate_key s now).2.current_key_index =
          (s.current_key_index + 1 + k) % s.api_keys.length ∧
        now - GeminiAI.cooldownOf
            (GeminiAI.dictSet s.key_cooldowns s.current_key_index now)
            ((GeminiAI.rotate_key s now).2.current_key_index) ≥
          s.cooldown_duration ∧
        ∀ m, m < k →
          ¬(now - GeminiAI.cooldownOf
              (GeminiAI.dictSet s.key_cooldowns s.current_key_index now)
              ((s.current_key_index + 1 + m) % s.api_keys.length) ≥
            s.cooldown_duration)) ∧
    ((GeminiAI.rotate_key s now).1 = false ↔
      ∀ k, k < s.api_keys.length →
        ¬(now - GeminiAI.cooldownOf
            (GeminiAI.dictSet s.key_cooldowns s.current_key_index now)
            ((s.current_key_index + 1 + k) % s.api_keys.length) ≥
          s.cooldown_duration)) ∧
    ((GeminiAI.rotate_key s now).1 = false →
      (GeminiAI.rotate_key s now).2.current_key_index =
        s.current_key_index) := by
  have hn : ¬(s.api_keys.length ≤ 1) := by omega
  rcases hf : GeminiAI.findEligible s.cooldown_duration now
      (GeminiAI.dictSet s.key_cooldowns s.current_key_index now)
      s.api_keys.length s.api_keys.length s.current_key_index with _ | j
  · have hr : GeminiAI.rotate_key s now =
        (false, { s with key_cooldowns :=
          GeminiAI.dictSet s.key_cooldowns s.current_key_index now }) := by
      unfold GeminiAI.rotate_key
      rw [if_neg hn, hf]
    refine ⟨?_, ?_, ?_, ?_⟩
    · rw [hr]
      exact cooldownOf_dictSet_self _ _ _
    · intro habs
      rw [hr] at habs
      simp at habs
    · rw [hr]
      simp only [true_iff]
      exact (findEligible_eq_none_iff s.cooldown_duration now
        s.api_keys.length _ s.api_keys.length s.current_key_index).1 hf
    · intro _
      rw [hr]
  · have hr : GeminiAI.rotate_key s now =
        (true, { s with
          key_cooldowns :=
            GeminiAI.dictSet s.key_cooldowns s.current_key_index now
          current_key_index := j
          configured_key := s.api_keys.getD j "" }) := by
      unfold GeminiAI.rotate_key
      rw [if_neg hn, hf]
    obtain ⟨k, hk, hj, helig, hmin⟩ :=
      (findEligible_eq_some_iff s.cooldown_duration now
        s.api_keys.length _ s.api_keys.length s.current_key_index j).1 hf
    refine ⟨?_, ?_, ?_, ?_⟩
    · rw [hr]
      exact cooldownOf_dictSet_self _ _ _
    · intro _
      rw [hr]
      exact ⟨k, hk, hj, helig, hmin⟩
    · rw [hr]
      simp only [Bool.true_eq_false, false_iff]
      intro hall
      exact absurd helig (hj ▸ hall k hk)
    · intro habs
      rw [hr] at habs
      simp at habs

/-- Witness for C2 at a concrete two-key pool: rotation succeeds and
selects key 1 as the first eligible candidate. -/
theorem rotate_key_first_eligible_witness :
    GeminiAI.cooldownOf (GeminiAI.rotate_key twoKeyState 100).2.key_cooldowns
      twoKeyState.current_key_index = 100 ∧
    ((GeminiAI.rotate_key twoKeyState 100).1 = false ↔
      ∀ k, k < twoKeyState.api_keys.length →
        ¬(100 - GeminiAI.cooldownOf
            (GeminiAI.dictSet twoKeyState.key_cooldowns
              twoKeyState.current_key_index 100)
            ((twoKeyState.current_key_index + 1 + k) %
              twoKeyState.api_keys.length) ≥
          twoKeyState.cooldown_duration)) :=
  ⟨(rotate_key_first_eligible twoKeyState 100 (by decide)).1,
   (rotate_key_first_eligible twoKeyState 100 (by decide)).2.2.1⟩

/-- Rotation never changes the key pool. -/
theorem rotate_key_api_keys (s : GeminiAI) (now : Nat) :
    (GeminiAI.rotate_key s now).2.api_keys = s.api_keys := by
  unfold GeminiAI.rotate_key
  split
  · rfl
  · split <;> rfl

/-- A successful scan lands on a valid index. -/
theorem findEligible_some_lt (dur now n : Nat) (cd : List (Nat × Nat))
    (hn : 0 < n) : ∀ (fuel idx j : Nat),
      GeminiAI.findEligible dur now cd n fuel idx = some j → j < n := by
  intro fuel
  induction fuel with
  | zero => intro idx j h; simp [GeminiAI.findEligible] at h
  | succ f ih =>
    intro idx j h
    rw [GeminiAI.findEligible] at h
    by_cases he : now - GeminiAI.cooldownOf cd ((idx + 1) % n) ≥ dur
    · rw [if_pos he] at h
      injection h with h
      rw [← h]
      exact Nat.mod_lt _ hn
    · rw [if_neg he] at h
      exact ih ((idx + 1) % n) j h

/-- Rotation keeps the active index valid. -/
theorem rotate_key_validIndex (s : GeminiAI) (now : Nat)
    (h : GeminiAI.validIndex s) :
    GeminiAI.validIndex (GeminiAI.rotate_key s now).2 := by
  unfold GeminiAI.validIndex at h ⊢
  rw [rotate_key_api_keys]
  unfold GeminiAI.rotate_key
  split
  · exact h
  · rename_i hn
    rcases hf : GeminiAI.findEligible s.cooldown_duration now
        (GeminiAI.dictSet s.key_cooldowns s.current_key_index now)
        s.api_keys.length s.api_keys.length s.current_key_index with _ | j
    · exact h
    · exact findEligible_some_lt _ _ _ _ (by omega) _ _ j hf

/-- States reached by rotations have the same key pool. -/
theorem rotateReach_api_keys {s t : GeminiAI}
    (h : GeminiAI.RotateReach s t) : t.api_keys = s.api_keys := by
  induction h with
  | refl s => rfl
  | cons s u now _ ih => rw [ih, rotate_key_api_keys]

/-- States reached by rotations keep the index valid. -/
theorem rotateReach_validIndex {s t : GeminiAI}
    (h : GeminiAI.RotateReach s t) (hv : GeminiAI.validIndex s) :
    GeminiAI.validIndex t := by
  induction h with
  | refl s => exact hv
  | cons s u now _ ih => exact ih (rotate_key_validIndex s now hv)

/-- The retry loop changes the state only through `_rotate_key`. -/
theorem genLoop_state_reach (req : GenRequest) (beh : Nat → Attempt) :
    ∀ (fuel attempt : Nat) (e : Option String) (s : GeminiAI),
      GeminiAI.RotateReach s
        (GeminiAI.genLoop req beh fuel attempt e s).state := by
  intro fuel
  induction fuel with
  | zero => intro attempt e s; exact .refl s
  | succ f ih =>
    intro attempt e s
    rcases hb : beh attempt with r | ⟨msg, now⟩
    · simp only [GeminiAI.genLoop, hb]
      split <;> exact .refl s
    · simp only [GeminiAI.genLoop, hb]
      cases hrl : isRateLimit msg
      · exact .refl s
      · simp only [if_true]
        cases hrot : (GeminiAI.rotate_key s now).1
        · simp only [Bool.false_eq_true, if_false]
          exact .cons s _ now (.refl _)
        · simp only [if_true]
          exact .cons s _ now
            (ih (attempt + 1) (some msg) (GeminiAI.rotate_key s now).2)

/-- C7: at construction the active index is 0 and valid; `_rotate_key`
keeps it valid; the state `generate` ends in is reachable from its
start state by rotations alone (rotation is the only mutator), with the
key pool untouched and the index still valid; `chat` mutates state only
through its inner `generate`; and `get_status` is a pure read
reporting the (1-based) active index. -/
theorem active_index_invariant :
    (∀ (multi single : String) (s0 : GeminiAI),
       GeminiAI.init multi single = .ok s0 →
       s0.current_key_index = 0 ∧ GeminiAI.validIndex s0) ∧
    (∀ (s : GeminiAI) (now : Nat), GeminiAI.validIndex s →
       GeminiAI.validIndex (GeminiAI.rotate_key s now).2) ∧
    (∀ (s : GeminiAI) (req : GenRequest) (beh : Nat → Attempt)
       (fbEnabled : Bool) (fb : GenRequest → FallbackCall),
       GeminiAI.RotateReach s (GeminiAI.generate s req beh fbEnabled fb).state ∧
       (GeminiAI.generate s req beh fbEnabled fb).state.api_keys = s.api_keys ∧
       (GeminiAI.validIndex s →
         GeminiAI.validIndex (GeminiAI.generate s req beh fbEnabled fb).state)) ∧
    (∀ (s : GeminiAI) (msgs : List (String × String)) (temperature : Int)
       (max_tokens : Nat) (beh : Nat → Attempt) (fbEnabled : Bool)
       (fb : GenRequest → FallbackCall),
       (GeminiAI.chat s msgs temperature max_tokens beh fbEnabled fb).2 =
         (GeminiAI.generate s
           { prompt := GeminiAI.messages_to_prompt msgs
             temperature := temperature, max_tokens := max_tokens
             stop := none } beh fbEnabled fb).state) ∧
    (∀ s : GeminiAI,
       (GeminiAI.get_status s).current_key_index = s.current_key_index + 1) := by
  refine ⟨?_, rotate_key_validIndex, ?_, ?_, fun s => rfl⟩
  · intro multi single s0 h
    unfold GeminiAI.init at h
    split at h
    · cases h
    · rename_i hne
      injection h with h
      rw [← h]
      refine ⟨rfl, ?_⟩
      unfold GeminiAI.validIndex
      simp only []
      have : GeminiAI.allKeys multi single ≠ [] := by
        intro habs
        rw [habs] at hne
        exact hne rfl
      exact List.length_pos.2 this
  · intro s req beh fbEnabled fb
    obtain ⟨_, hstate, _⟩ := generate_instrumentation s req beh fbEnabled fb
    rw [hstate]
    refine ⟨genLoop_state_reach req beh s.api_keys.length 0 none s, ?_, ?_⟩
    · exact rotateReach_api_keys
        (genLoop_state_reach req beh s.api_keys.length 0 none s)
    · intro hv
      exact rotateReach_validIndex
        (genLoop_state_reach req beh s.api_keys.length 0 none s) hv
  · intro s msgs temperature max_tokens beh fbEnabled fb
    simp only [GeminiAI.chat]
    split <;> rfl

/-- Witness for C7: after a `generate` that rotated away from key 0,
the active index is still valid. -/
theorem active_index_invariant_witness :
    GeminiAI.validIndex
      (GeminiAI.generate twoKeyState sampleReq allRateLimited false
        raisingFb).state :=
  (active_index_invariant.2.2.1 twoKeyState sampleReq allRateLimited false
    raisingFb).2.2
    (show twoKeyState.current_key_index < twoKeyState.api_keys.length by decide)
